import Mathlib

/-!
Verification of the token lifecycle coordinator in
`src/schwab_client/auth.py` (`SchwabAuthTokenManager`).

The coordinator is embedded shallowly: every external effect of one
`get_token` call — successive `token_storage.read_token` results,
successive `time.time()` readings, the lock-acquisition outcome, and the
refresh endpoint's response — is supplied by an `Env` oracle, and the
call is interpreted as a pure function from `Env` to a result together
with a final `CoordState` (the `self._token` field plus a trace of the
externally visible events, in order).
-/

namespace SchwabClient

/-- Value found under the `expires_at` key of a stored token dict:
either a numeric timestamp (Python `int`/`float`, with `bool` folded
into `0`/`1` since `isinstance(True, int)` holds), or some non-numeric
value (string, list, ...), which fails the `isinstance` check. -/
inductive ExpVal where
  | num (x : Int)
  | other
  deriving DecidableEq, Repr

/-- Shallow embedding of the `OAuth2Token` `TypedDict` (utils.py, `total=False`):
every key may be absent. -/
structure Tok where
  access_token : Option String := none
  refresh_token : Option String := none
  expires_in : Option Int := none
  expires_at : Option ExpVal := none
  token_type : Option String := none
  scope : Option String := none
  deriving DecidableEq, Repr

/-- Externally visible events of one `get_token` call, in program order.
`lockAcquire b` is the entry of `async with self.lock(...) as acquired`
with outcome `b`; `lockExit` is the context-manager exit (which runs on
every path out of the block, exceptions included). -/
inductive Event where
  | readStore
  | lockAcquire (ok : Bool)
  | lockExit
  | refreshCall (rt : String)
  | writeStore (t : Tok)
  | sleep
  deriving DecidableEq, Repr

/-- Exceptions the embedded code can raise: `ValueError("Token not found.")`
(auth.py:196), `RuntimeError("Failed to get a valid token.")` (auth.py:180),
`httpx.HTTPStatusError` from `raise_for_status()` (auth.py:152) carrying the
upstream HTTP status, and `KeyError` from dict indexing (auth.py:207). -/
inductive TokenError where
  | valueError (msg : String)
  | runtimeError (msg : String)
  | httpStatusError (status : Nat)
  | keyError (key : String)
  deriving DecidableEq, Repr

/-- Oracle for the external world during one call: `reads i` is the value
the i-th `read_token` returns (`none` for a missing/falsy record),
`times j` is the clock at the j-th expiry evaluation, `acquired` is the
lock-acquisition outcome, and `refreshResp rt` is the refresh endpoint's
answer to a request spending `rt` (`Except.error status` for a non-2xx
response, `Except.ok t` for the parsed JSON body). -/
structure Env where
  reads : Nat → Option Tok
  times : Nat → Int
  acquired : Bool
  refreshResp : String → Except Nat Tok

/-- Mutable state threaded through one call: oracle cursors, the
manager's `self._token` attribute, and the event trace so far. -/
structure CoordState where
  readIdx : Nat := 0
  timeIdx : Nat := 0
  tokenField : Option Tok := none
  trace : List Event := []
  deriving Repr

/-- Initial state of a call on a freshly constructed manager. -/
def initState : CoordState := {}

/-- Perform one `token_storage.read_token(self.db_client)`. -/
def readTok (env : Env) (s : CoordState) : Option Tok × CoordState :=
  (env.reads s.readIdx,
   { s with readIdx := s.readIdx + 1, trace := s.trace ++ [Event.readStore] })

/-- Pure core of `is_token_expired` (auth.py:111-119) once the stored
value and the clock reading are fixed: `not token`, then the
`isinstance(expires_at, (int, float))` guard, then
`not expires_at or time.time() >= (expires_at - buffer)`. The clock is
consulted only when `expires_at` is a nonzero number, which `tokenStale`
mirrors by ignoring `now` in every other branch. -/
def tokenStale (tok : Option Tok) (now : Int) (buffer : Int) : Bool :=
  match tok with
  | none => true
  | some t =>
    match t.expires_at with
    | some (ExpVal.num x) => if x = 0 then true else decide (now ≥ x - buffer)
    | _ => true

/-- Method `is_token_expired(buffer)` (auth.py:99-119): reads the store,
then evaluates the expiry formula against the next clock reading. -/
def is_token_expired (env : Env) (buffer : Int) (s : CoordState) :
    Bool × CoordState :=
  let r := readTok env s
  (tokenStale r.1 (env.times s.timeIdx) buffer,
   { r.2 with timeIdx := s.timeIdx + 1 })

/-- Method `_refresh_token(refresh_token)` (auth.py:121-153): one POST to
the refresh endpoint; `raise_for_status()` turns a non-2xx answer into an
HTTP status error, otherwise `response.json()` is returned verbatim —
no field of the body is recomputed or added. -/
def refreshTokenCall (env : Env) (rt : String) (s : CoordState) :
    Except TokenError Tok × CoordState :=
  let s1 := { s with trace := s.trace ++ [Event.refreshCall rt] }
  match env.refreshResp rt with
  | Except.error status => (Except.error (TokenError.httpStatusError status), s1)
  | Except.ok t => (Except.ok t, s1)

/-- Method `_retry_get_valid_token(attempts, delay)` (auth.py:155-180):
each round sleeps, re-reads the store, skips a falsy record, and
otherwise accepts iff `is_token_expired()` — zero buffer, and its own
fresh store read — is false, recording the round's read in `self._token`
and returning it; an exhausted loop raises `RuntimeError`. -/
def retryLoop (env : Env) : Nat → CoordState → Except TokenError Tok × CoordState
  | 0, s => (Except.error (TokenError.runtimeError "Failed to get a valid token."), s)
  | n + 1, s =>
    let s0 := { s with trace := s.trace ++ [Event.sleep] }
    let r := readTok env s0
    match r.1 with
    | none => retryLoop env n r.2
    | some t =>
      let c := is_token_expired env 0 r.2
      if c.1 then retryLoop env n c.2
      else (Except.ok t, { c.2 with tokenField := some t })

/-- Method `get_token(buffer, lock_attempts)` (auth.py:183-216). -/
def get_token (env : Env) (buffer : Int) (lock_attempts : Nat) :
    Except TokenError Tok × CoordState :=
  let r := readTok env initState
  match r.1 with
  | none => (Except.error (TokenError.valueError "Token not found."), r.2)
  | some token_data =>
    let c := is_token_expired env buffer r.2
    if !c.1 then
      (Except.ok token_data, { c.2 with tokenField := some token_data })
    else
      let s3 := { c.2 with trace := c.2.trace ++ [Event.lockAcquire env.acquired] }
      if env.acquired then
        match token_data.refresh_token with
        | none =>
          (Except.error (TokenError.keyError "refresh_token"),
           { s3 with trace := s3.trace ++ [Event.lockExit] })
        | some rt =>
          let fr := refreshTokenCall env rt s3
          match fr.1 with
          | Except.error e =>
            (Except.error e, { fr.2 with trace := fr.2.trace ++ [Event.lockExit] })
          | Except.ok refreshed =>
            let s5 := { fr.2 with tokenField := some token_data }
            let s6 := { s5 with trace := s5.trace ++ [Event.writeStore refreshed] }
            (Except.ok refreshed, { s6 with trace := s6.trace ++ [Event.lockExit] })
      else
        let rr := retryLoop env lock_attempts s3
        (rr.1, { rr.2 with trace := rr.2.trace ++ [Event.lockExit] })

/-- Number of sleep events in a trace (one per WAIT-RETRY polling round). -/
def sleepCount (tr : List Event) : Nat :=
  (tr.filter fun e => match e with | Event.sleep => true | _ => false).length

/-- Number of store-write events in a trace. -/
def writeCount (tr : List Event) : Nat :=
  (tr.filter fun e => match e with | Event.writeStore _ => true | _ => false).length

/-- Number of refresh-endpoint calls in a trace. -/
def refreshCount (tr : List Event) : Nat :=
  (tr.filter fun e => match e with | Event.refreshCall _ => true | _ => false).length

/-- Number of lock-acquisition attempts in a trace. -/
def lockTryCount (tr : List Event) : Nat :=
  (tr.filter fun e => match e with | Event.lockAcquire _ => true | _ => false).length

/-- Environment in which no store read of the WAIT-RETRY phase (read
cursor at least 2: the initial read and the first freshness check use
cursors 0 and 1) ever yields a record that passes the zero-buffer
freshness test at any polling-phase clock reading (clock cursor at
least 1) — no polling round can observe a fresh record in the store. -/
def noFreshPoll (env : Env) : Prop :=
  ∀ i j, 2 ≤ i → 1 ≤ j → tokenStale (env.reads i) (env.times j) 0 = true

/-- Expiry condition stated by the spec (§4.1): true iff no record
exists, `expires_at` is absent or not a numeric timestamp, or
`now >= expires_at - buffer_seconds`. -/
def staleSpec (tok : Option Tok) (now buffer : Int) : Bool :=
  match tok with
  | none => true
  | some t =>
    match t.expires_at with
    | some (ExpVal.num x) => decide (now ≥ x - buffer)
    | _ => true

/-- State after a WAIT-RETRY round whose store read returned a falsy
record: one sleep and one read appended, read cursor advanced. -/
def roundSkip (s : CoordState) : CoordState :=
  { s with
      readIdx := s.readIdx + 1,
      trace := (s.trace ++ [Event.sleep]) ++ [Event.readStore] }

/-- State after a WAIT-RETRY round that read a record and ran the
zero-buffer freshness check (which performs its own store read). -/
def roundCheck (s : CoordState) : CoordState :=
  { s with
      readIdx := s.readIdx + 1 + 1,
      timeIdx := s.timeIdx + 1,
      trace := ((s.trace ++ [Event.sleep]) ++ [Event.readStore])
                 ++ [Event.readStore] }

/-- State of a call that found a stale record and failed to acquire the
lock, at the moment it enters the WAIT-RETRY loop. -/
def contendState : CoordState :=
  { readIdx := 2, timeIdx := 1, tokenField := none,
    trace := [Event.readStore, Event.readStore, Event.lockAcquire false] }

/-- Token stored for the C2 witness: expires 100 seconds after the
clock reading 1000. -/
def tokW2 : Tok :=
  { access_token := some "A", refresh_token := some "R",
    expires_at := some (ExpVal.num 1100) }

/-- Environment for the C2 witness: constant store and clock. -/
def envW2 : Env :=
  { reads := fun _ => some tokW2, times := fun _ => 1000, acquired := false,
    refreshResp := fun _ => Except.error 400 }

/-- Environment for the C4 witness: an empty store. -/
def envW4 : Env :=
  { reads := fun _ => none, times := fun _ => 0, acquired := false,
    refreshResp := fun _ => Except.error 400 }

/-- Stored record of the spec's refresh scenario: `access_token "A1"`,
`refresh_token "R1"`, `expires_at = now - 10` with `now = 1000`. -/
def tokA1 : Tok :=
  { access_token := some "A1", refresh_token := some "R1",
    expires_at := some (ExpVal.num 990) }

/-- Provider response of the spec's refresh scenario: `access_token
"A2"`, `refresh_token "R2"`, `expires_in 1800` (and, as the endpoint
actually answers, no `expires_at` key). -/
def tokA2 : Tok :=
  { access_token := some "A2", refresh_token := some "R2",
    expires_in := some 1800 }

/-- Environment for the C5 witness: the spec's refresh scenario with the
lock acquired. -/
def envW5 : Env :=
  { reads := fun _ => some tokA1, times := fun _ => 1000, acquired := true,
    refreshResp := fun _ => Except.ok tokA2 }

/-- Environment for the C6 witness: as the refresh scenario but the
endpoint answers HTTP 401. -/
def envW6 : Env :=
  { reads := fun _ => some tokA1, times := fun _ => 1000, acquired := true,
    refreshResp := fun _ => Except.error 401 }

/-- Environment for the C10 witness: the refresh scenario again. -/
def envW10 : Env :=
  { reads := fun _ => some tokA1, times := fun _ => 1000, acquired := true,
    refreshResp := fun _ => Except.ok tokA2 }

/-- Record another holder has published while this caller was between
its FRESH-CHECK and its lock acquisition: fresh, and carrying the
rotated refresh credential "R2". -/
def tokRotated : Tok :=
  { access_token := some "AX", refresh_token := some "R2",
    expires_at := some (ExpVal.num 5000) }

/-- Record the refresh endpoint mints when spending "R1". -/
def tokMinted : Tok :=
  { access_token := some "AY", refresh_token := some "R3",
    expires_in := some 1800 }

/-- Environment for C1: the caller's two pre-lock reads see the expired
A1/R1 record; from the third read on the store holds the record another
holder refreshed in the meantime, bearing "R2". The lock is acquired. -/
def envC1 : Env :=
  { reads := fun i => if i ≤ 1 then some tokA1 else some tokRotated,
    times := fun _ => 1000, acquired := true,
    refreshResp := fun _ => Except.ok tokMinted }

/-- Environment for C7: the spec's refresh scenario; the endpoint's
response body carries `expires_in = 1800` and no `expires_at`, and the
clock reads 1000. -/
def envC7 : Env :=
  { reads := fun _ => some tokA1, times := fun _ => 1000, acquired := true,
    refreshResp := fun _ => Except.ok tokA2 }

/-- Environment for the C3 witness: the store permanently holds the
expired A1 record and the lock is never acquired. -/
def envW3 : Env :=
  { reads := fun _ => some tokA1, times := fun _ => 1000, acquired := false,
    refreshResp := fun _ => Except.error 400 }

/-- Environment for the C8 witness: the refresh scenario once more. -/
def envW8 : Env :=
  { reads := fun _ => some tokA1, times := fun _ => 1000, acquired := true,
    refreshResp := fun _ => Except.ok tokA2 }

/-- Expired record a WAIT-RETRY polling round reads. -/
def tokStale9 : Tok :=
  { access_token := some "E", refresh_token := some "RE",
    expires_at := some (ExpVal.num 990) }

/-- Fresh record the subsequent freshness-check read observes. -/
def tokFresh9 : Tok :=
  { access_token := some "F", refresh_token := some "RF",
    expires_at := some (ExpVal.num 5000) }

/-- Environment for C9: the first three store reads (initial read,
first freshness check, first polling round) see the expired record;
from the fourth read on — in particular the polling round's own
freshness-check read — the store holds the fresh record. The clock is
constantly 1000 and the lock is never acquired. -/
def envC9 : Env :=
  { reads := fun i => if i ≤ 2 then some tokStale9 else some tokFresh9,
    times := fun _ => 1000, acquired := false,
    refreshResp := fun _ => Except.error 400 }

/-- Record whose `expires_at` is in the past relative to the clock
reading 1000. -/
def tokPast2 : Tok :=
  { access_token := some "P", refresh_token := some "RP",
    expires_at := some (ExpVal.num 990) }

/-- Environment for the first C2 counterexample: past `expires_at`,
clock 1000. -/
def envC2a : Env :=
  { reads := fun _ => some tokPast2, times := fun _ => 1000, acquired := false,
    refreshResp := fun _ => Except.error 400 }

/-- Record whose `expires_at` is the numeric timestamp 0, which Python
truthiness treats as falsy. -/
def tokZero2 : Tok :=
  { access_token := some "Z", refresh_token := some "RZ",
    expires_at := some (ExpVal.num 0) }

/-- Environment for the second C2 counterexample: zero `expires_at`,
clock 0. -/
def envC2b : Env :=
  { reads := fun _ => some tokZero2, times := fun _ => 0, acquired := false,
    refreshResp := fun _ => Except.error 400 }

/-- Environment for the C3 counterexample: the caller's two pre-lock
reads and the first polling round's read see the expired record; the
round's own freshness-check read sees the fresh record. Clock constant
at 1000, lock never acquired. -/
def envC3x : Env :=
  { reads := fun i => if i ≤ 2 then some tokStale9 else some tokFresh9,
    times := fun _ => 1000, acquired := false,
    refreshResp := fun _ => Except.error 400 }

lemma sleepCount_append (a b : List Event) :
    sleepCount (a ++ b) = sleepCount a + sleepCount b := by
  simp [sleepCount, List.filter_append]

lemma refreshCount_append (a b : List Event) :
    refreshCount (a ++ b) = refreshCount a + refreshCount b := by
  simp [refreshCount, List.filter_append]

lemma writeCount_append (a b : List Event) :
    writeCount (a ++ b) = writeCount a + writeCount b := by
  simp [writeCount, List.filter_append]

/-- Branch lemma: empty store at the first read. -/
lemma get_token_none (env : Env) (buffer : Int) (la : Nat)
    (h : env.reads 0 = none) :
    get_token env buffer la =
      (Except.error (TokenError.valueError "Token not found."),
       { readIdx := 1, timeIdx := 0, tokenField := none,
         trace := [Event.readStore] }) := by
  simp [get_token, readTok, initState, h]

/-- Branch lemma: first read yields a record that passes the caller's
freshness check — returned as is, with `self._token` updated. -/
lemma get_token_fresh (env : Env) (buffer : Int) (la : Nat) (t0 : Tok)
    (h0 : env.reads 0 = some t0)
    (hf : tokenStale (env.reads 1) (env.times 0) buffer = false) :
    get_token env buffer la =
      (Except.ok t0,
       { readIdx := 2, timeIdx := 1, tokenField := some t0,
         trace := [Event.readStore, Event.readStore] }) := by
  simp [get_token, readTok, is_token_expired, initState, h0, hf]

/-- Branch lemma: stale record, lock acquired, refresh endpoint answers
2xx — the response is written back and returned, and `self._token` is
set to the pre-refresh record. -/
lemma get_token_locked_ok (env : Env) (buffer : Int) (la : Nat)
    (t0 newTok : Tok) (rt : String)
    (h0 : env.reads 0 = some t0)
    (hst : tokenStale (env.reads 1) (env.times 0) buffer = true)
    (hacq : env.acquired = true)
    (hrt : t0.refresh_token = some rt)
    (hok : env.refreshResp rt = Except.ok newTok) :
    get_token env buffer la =
      (Except.ok newTok,
       { readIdx := 2, timeIdx := 1, tokenField := some t0,
         trace := [Event.readStore, Event.readStore, Event.lockAcquire true,
                   Event.refreshCall rt, Event.writeStore newTok,
                   Event.lockExit] }) := by
  simp [get_token, readTok, is_token_expired, refreshTokenCall, initState,
        h0, hst, hacq, hrt, hok]

/-- Branch lemma: stale record, lock acquired, refresh endpoint answers
non-2xx — the HTTP error propagates through the lock block, with no
store write. -/
lemma get_token_locked_err (env : Env) (buffer : Int) (la : Nat)
    (t0 : Tok) (rt : String) (status : Nat)
    (h0 : env.reads 0 = some t0)
    (hst : tokenStale (env.reads 1) (env.times 0) buffer = true)
    (hacq : env.acquired = true)
    (hrt : t0.refresh_token = some rt)
    (herr : env.refreshResp rt = Except.error status) :
    get_token env buffer la =
      (Except.error (TokenError.httpStatusError status),
       { readIdx := 2, timeIdx := 1, tokenField := none,
         trace := [Event.readStore, Event.readStore, Event.lockAcquire true,
                   Event.refreshCall rt, Event.lockExit] }) := by
  simp [get_token, readTok, is_token_expired, refreshTokenCall, initState,
        h0, hst, hacq, hrt, herr]

/-- Branch lemma: stale record, lock acquired, but the stored record has
no `refresh_token` key — the dict indexing raises `KeyError`, which
propagates through the lock block. -/
lemma get_token_locked_keyerr (env : Env) (buffer : Int) (la : Nat) (t0 : Tok)
    (h0 : env.reads 0 = some t0)
    (hst : tokenStale (env.reads 1) (env.times 0) buffer = true)
    (hacq : env.acquired = true)
    (hrt : t0.refresh_token = none) :
    get_token env buffer la =
      (Except.error (TokenError.keyError "refresh_token"),
       { readIdx := 2, timeIdx := 1, tokenField := none,
         trace := [Event.readStore, Event.readStore, Event.lockAcquire true,
                   Event.lockExit] }) := by
  simp [get_token, readTok, is_token_expired, initState, h0, hst, hacq, hrt]

/-- Branch lemma: stale record, lock not acquired — the call defers to
the WAIT-RETRY loop, whose exit passes through the lock block's exit. -/
lemma get_token_retry (env : Env) (buffer : Int) (la : Nat) (t0 : Tok)
    (h0 : env.reads 0 = some t0)
    (hst : tokenStale (env.reads 1) (env.times 0) buffer = true)
    (hacq : env.acquired = false) :
    get_token env buffer la =
      ((retryLoop env la contendState).1,
       { (retryLoop env la contendState).2 with
         trace := (retryLoop env la contendState).2.trace ++ [Event.lockExit] }) := by
  simp [get_token, readTok, is_token_expired, initState, contendState, h0, hst, hacq]

@[simp] lemma roundSkip_readIdx (s : CoordState) :
    (roundSkip s).readIdx = s.readIdx + 1 := rfl

@[simp] lemma roundSkip_timeIdx (s : CoordState) :
    (roundSkip s).timeIdx = s.timeIdx := rfl

@[simp] lemma roundSkip_trace (s : CoordState) :
    (roundSkip s).trace = (s.trace ++ [Event.sleep]) ++ [Event.readStore] := rfl

@[simp] lemma roundCheck_readIdx (s : CoordState) :
    (roundCheck s).readIdx = s.readIdx + 1 + 1 := rfl

@[simp] lemma roundCheck_timeIdx (s : CoordState) :
    (roundCheck s).timeIdx = s.timeIdx + 1 := rfl

@[simp] lemma roundCheck_trace (s : CoordState) :
    (roundCheck s).trace =
      ((s.trace ++ [Event.sleep]) ++ [Event.readStore]) ++ [Event.readStore] := rfl

/-- Round equation: the round's store read returned a falsy record, so
the loop continues with the next attempt. -/
lemma retryLoop_none (env : Env) (n : Nat) (s : CoordState)
    (hr : env.reads s.readIdx = none) :
    retryLoop env (n + 1) s = retryLoop env n (roundSkip s) := by
  simp [retryLoop, readTok, hr, roundSkip]

/-- Round equation: the round read a record but the zero-buffer check
still reported it expired, so the loop continues. -/
lemma retryLoop_stale (env : Env) (n : Nat) (s : CoordState) (t : Tok)
    (hr : env.reads s.readIdx = some t)
    (hc : tokenStale (env.reads (s.readIdx + 1)) (env.times s.timeIdx) 0 = true) :
    retryLoop env (n + 1) s = retryLoop env n (roundCheck s) := by
  simp [retryLoop, readTok, is_token_expired, hr, hc, roundCheck]

/-- Round equation: the round read a record and the zero-buffer check
passed, so the round's read is stored in `self._token` and returned. -/
lemma retryLoop_found (env : Env) (n : Nat) (s : CoordState) (t : Tok)
    (hr : env.reads s.readIdx = some t)
    (hc : tokenStale (env.reads (s.readIdx + 1)) (env.times s.timeIdx) 0 = false) :
    retryLoop env (n + 1) s =
      (Except.ok t, { roundCheck s with tokenField := some t }) := by
  simp [retryLoop, readTok, is_token_expired, hr, hc, roundCheck]

/-- Events appended by the WAIT-RETRY loop are only sleeps and store
reads: the loop neither writes the store nor calls the refresh
endpoint. -/
lemma retryLoop_trace (env : Env) :
    ∀ (n : Nat) (s : CoordState), ∃ d,
      (retryLoop env n s).2.trace = s.trace ++ d ∧
      ∀ e ∈ d, e = Event.sleep ∨ e = Event.readStore := by
  intro n
  induction n with
  | zero => exact fun s => ⟨[], by simp [retryLoop], by simp⟩
  | succ n ih =>
    intro s
    cases hr : env.reads s.readIdx with
    | none =>
      rw [retryLoop_none env n s hr]
      obtain ⟨d, hd, hall⟩ := ih (roundSkip s)
      refine ⟨[Event.sleep, Event.readStore] ++ d, ?_, ?_⟩
      · rw [hd]; simp
      · intro e he
        rcases List.mem_append.1 he with h1 | h1
        · rcases List.mem_cons.1 h1 with h2 | h2
          · exact Or.inl h2
          · rcases List.mem_singleton.1 (by simpa using h2) with rfl
            exact Or.inr rfl
        · exact hall e h1
    | some t =>
      by_cases hc :
          tokenStale (env.reads (s.readIdx + 1)) (env.times s.timeIdx) 0 = true
      · rw [retryLoop_stale env n s t hr hc]
        obtain ⟨d, hd, hall⟩ := ih (roundCheck s)
        refine ⟨[Event.sleep, Event.readStore, Event.readStore] ++ d, ?_, ?_⟩
        · rw [hd]; simp
        · intro e he
          rcases List.mem_append.1 he with h1 | h1
          · rcases List.mem_cons.1 h1 with h2 | h2
            · exact Or.inl h2
            · rcases List.mem_cons.1 h2 with h3 | h3
              · exact Or.inr h3
              · rcases List.mem_singleton.1 (by simpa using h3) with rfl
                exact Or.inr rfl
          · exact hall e h1
      · rw [Bool.not_eq_true] at hc
        rw [retryLoop_found env n s t hr hc]
        refine ⟨[Event.sleep, Event.readStore, Event.readStore], by simp, ?_⟩
        intro e he
        rcases List.mem_cons.1 he with h1 | h1
        · exact Or.inl h1
        · rcases List.mem_cons.1 h1 with h2 | h2
          · exact Or.inr h2
          · rcases List.mem_singleton.1 (by simpa using h2) with rfl
            exact Or.inr rfl

/-- Starting anywhere in the polling phase (read cursor at least 2,
clock cursor at least 1) of an environment in which no polling-phase
store read shows a fresh record, the WAIT-RETRY loop runs all of its
rounds — one sleep each — and then raises `RuntimeError`. -/
lemma retryLoop_exhaust (env : Env) (h : noFreshPoll env) :
    ∀ (n : Nat) (s : CoordState), 2 ≤ s.readIdx → 1 ≤ s.timeIdx →
      (retryLoop env n s).1
        = Except.error (TokenError.runtimeError "Failed to get a valid token.")
      ∧ sleepCount (retryLoop env n s).2.trace = sleepCount s.trace + n := by
  intro n
  induction n with
  | zero => intro s _ _; exact ⟨rfl, by simp [retryLoop]⟩
  | succ n ih =>
    intro s hri hti
    cases hr : env.reads s.readIdx with
    | none =>
      rw [retryLoop_none env n s hr]
      obtain ⟨h1, h2⟩ := ih (roundSkip s)
        (by simp only [roundSkip_readIdx]; omega)
        (by simp only [roundSkip_timeIdx]; omega)
      refine ⟨h1, ?_⟩
      rw [h2]
      simp only [sleepCount_append, roundSkip_trace]
      simp [sleepCount]
      omega
    | some t =>
      have hc : tokenStale (env.reads (s.readIdx + 1)) (env.times s.timeIdx) 0
          = true := h (s.readIdx + 1) s.timeIdx (by omega) hti
      rw [retryLoop_stale env n s t hr hc]
      obtain ⟨h1, h2⟩ := ih (roundCheck s)
        (by simp only [roundCheck_readIdx]; omega)
        (by simp only [roundCheck_timeIdx]; omega)
      refine ⟨h1, ?_⟩
      rw [h2]
      simp only [sleepCount_append, roundCheck_trace]
      simp [sleepCount]
      omega

/-- A failing WAIT-RETRY loop can only fail as the exhausted-loop
`RuntimeError`, and any such failure comes after exactly one sleep per
configured attempt — never earlier, and the loop always terminates. -/
lemma retryLoop_err (env : Env) :
    ∀ (n : Nat) (s : CoordState) (err : TokenError),
      (retryLoop env n s).1 = Except.error err →
      err = TokenError.runtimeError "Failed to get a valid token."
      ∧ sleepCount (retryLoop env n s).2.trace = sleepCount s.trace + n := by
  intro n
  induction n with
  | zero =>
    intro s err h
    simp only [retryLoop, Except.error.injEq] at h
    exact ⟨h.symm, by simp [retryLoop]⟩
  | succ n ih =>
    intro s err h
    cases hr : env.reads s.readIdx with
    | none =>
      rw [retryLoop_none env n s hr] at h ⊢
      obtain ⟨h1, h2⟩ := ih _ _ h
      refine ⟨h1, ?_⟩
      rw [h2]
      simp only [sleepCount_append, roundSkip_trace]
      simp [sleepCount]
      omega
    | some t =>
      by_cases hc :
          tokenStale (env.reads (s.readIdx + 1)) (env.times s.timeIdx) 0 = true
      · rw [retryLoop_stale env n s t hr hc] at h ⊢
        obtain ⟨h1, h2⟩ := ih _ _ h
        refine ⟨h1, ?_⟩
        rw [h2]
        simp only [sleepCount_append, roundCheck_trace]
        simp [sleepCount]
        omega
      · rw [Bool.not_eq_true] at hc
        rw [retryLoop_found env n s t hr hc] at h
        simp at h

/-- A record returned by the WAIT-RETRY loop was read from the store in
some polling round, and the acceptance test that admitted it was the
zero-buffer staleness formula evaluated on the loop's own next store
read. -/
lemma retryLoop_ok (env : Env) :
    ∀ (n : Nat) (s : CoordState) (t : Tok),
      (retryLoop env n s).1 = Except.ok t →
      ∃ i j, s.readIdx ≤ i ∧ env.reads i = some t ∧
        tokenStale (env.reads (i + 1)) (env.times j) 0 = false := by
  intro n
  induction n with
  | zero => intro s t h; simp [retryLoop] at h
  | succ n ih =>
    intro s t h
    cases hr : env.reads s.readIdx with
    | none =>
      rw [retryLoop_none env n s hr] at h
      obtain ⟨i, j, hi, h1, h2⟩ := ih _ _ h
      refine ⟨i, j, ?_, h1, h2⟩
      simp only [roundSkip_readIdx] at hi
      omega
    | some t' =>
      by_cases hc :
          tokenStale (env.reads (s.readIdx + 1)) (env.times s.timeIdx) 0 = true
      · rw [retryLoop_stale env n s t' hr hc] at h
        obtain ⟨i, j, hi, h1, h2⟩ := ih _ _ h
        refine ⟨i, j, ?_, h1, h2⟩
        simp only [roundCheck_readIdx] at hi
        omega
      · rw [Bool.not_eq_true] at hc
        rw [retryLoop_found env n s t' hr hc] at h
        simp only [Except.ok.injEq] at h
        exact ⟨s.readIdx, s.timeIdx, le_rfl, by rw [hr, h], hc⟩

/-- A list of sleeps and store reads contains no refresh-endpoint call. -/
lemma refreshCount_sleeps_reads (d : List Event)
    (h : ∀ e ∈ d, e = Event.sleep ∨ e = Event.readStore) :
    refreshCount d = 0 := by
  simp only [refreshCount, List.length_eq_zero, List.filter_eq_nil_iff]
  intro e he
  rcases h e he with rfl | rfl <;> simp

/-- A list of sleeps and store reads contains no store write. -/
lemma writeStore_not_mem_sleeps_reads (t : Tok) (d : List Event)
    (h : ∀ e ∈ d, e = Event.sleep ∨ e = Event.readStore) :
    Event.writeStore t ∉ d := by
  intro hm
  rcases h _ hm with h' | h' <;> exact Event.noConfusion h'

/-- Counterexample to C2 at negative buffers, which the claim's "every
buffer value b" and "regardless of buffer" quantify over. First input:
a record with past `expires_at = 990` at clock 1000 is reported NOT
expired at buffer −100 (the code tests `1000 ≥ 990 − (−100)`), refuting
"past `expires_at` returns true regardless of buffer". Second input:
`expires_at = 0` at clock 0 with buffer −1 is reported expired by the
code (Python's `not expires_at` short-circuit) although the claimed
formula `now ≥ expires_at − b` is `0 ≥ 1`, false — refuting the iff. -/
theorem C2_negative_buffer_cex :
    ((990 : Int) ≤ envC2a.times 0
      ∧ tokPast2.expires_at = some (ExpVal.num 990)
      ∧ (is_token_expired envC2a (-100) initState).1 = false)
    ∧ ((is_token_expired envC2b (-1) initState).1 = true
      ∧ staleSpec (envC2b.reads 0) (envC2b.times 0) (-1) = false) := by
  refine ⟨⟨by decide, rfl, by decide⟩, by decide, by decide⟩

/-- C2 as amended: for every stored state and every NON-NEGATIVE buffer
value `b` (with the non-negative clock that `time.time()` reports),
`is_token_expired b` is true iff no record exists, `expires_at` is
absent or non-numeric, or `now ≥ expires_at - b`; for
`expires_at = now + 100` it is false at buffer 60 and true at buffer
150; and a record with missing, non-numeric, or past `expires_at` is
expired regardless of (non-negative) buffer. -/
theorem C2_expiry_evaluator (env : Env) (s : CoordState)
    (hnow : 0 ≤ env.times s.timeIdx) :
    (∀ buffer : Int, 0 ≤ buffer →
       ((is_token_expired env buffer s).1 = true ↔
         staleSpec (env.reads s.readIdx) (env.times s.timeIdx) buffer = true))
    ∧ (∀ t : Tok, env.reads s.readIdx = some t →
         t.expires_at = some (ExpVal.num (env.times s.timeIdx + 100)) →
         (is_token_expired env 60 s).1 = false
         ∧ (is_token_expired env 150 s).1 = true)
    ∧ (∀ (t : Tok) (buffer : Int), 0 ≤ buffer → env.reads s.readIdx = some t →
         (t.expires_at = none ∨ t.expires_at = some ExpVal.other ∨
           ∃ x, t.expires_at = some (ExpVal.num x) ∧ x ≤ env.times s.timeIdx) →
         (is_token_expired env buffer s).1 = true) := by
  have key : ∀ b : Int, (is_token_expired env b s).1
      = tokenStale (env.reads s.readIdx) (env.times s.timeIdx) b := fun b => rfl
  refine ⟨?_, ?_, ?_⟩
  · intro b hb
    rw [key]
    cases hr : env.reads s.readIdx with
    | none => simp [tokenStale, staleSpec]
    | some t =>
      cases he : t.expires_at with
      | none => simp [tokenStale, staleSpec, he]
      | some v =>
        cases v with
        | other => simp [tokenStale, staleSpec, he]
        | num x =>
          by_cases hx : x = 0
          · subst hx
            simp [tokenStale, staleSpec, he]
            omega
          · simp [tokenStale, staleSpec, he, hx]
  · intro t hr he
    have hx : env.times s.timeIdx + 100 ≠ 0 := by omega
    constructor
    · rw [key]
      simp [tokenStale, hr, he, hx]
    · rw [key]
      simp [tokenStale, hr, he, hx]
  · intro t b hb hr hcase
    rw [key]
    rcases hcase with he | he | ⟨x, he, hx⟩
    · simp [tokenStale, hr, he]
    · simp [tokenStale, hr, he]
    · by_cases h0 : x = 0
      · subst h0
        simp [tokenStale, hr, he]
      · simp [tokenStale, hr, he, h0]
        omega

/-- Witness for C2 at a concrete store and clock: `expires_at = 1100`
with `now = 1000` is fresh at buffer 60 and expired at buffer 150. -/
theorem C2_expiry_evaluator_witness :
    (is_token_expired envW2 60 initState).1 = false
    ∧ (is_token_expired envW2 150 initState).1 = true :=
  (C2_expiry_evaluator envW2 initState (by decide)).2.1 tokW2 rfl (by decide)

/-- C4: a call against a store with no record fails at once with the
no-credential error (`ValueError("Token not found.")` in the source),
its trace being the single initial store read — so zero lock-acquisition
attempts, zero refresh calls, zero store writes, and no retry. -/
theorem C4_empty_store (env : Env) (buffer : Int) (la : Nat)
    (h : env.reads 0 = none) :
    (get_token env buffer la).1
      = Except.error (TokenError.valueError "Token not found.")
    ∧ (get_token env buffer la).2.trace = [Event.readStore]
    ∧ lockTryCount (get_token env buffer la).2.trace = 0
    ∧ refreshCount (get_token env buffer la).2.trace = 0
    ∧ writeCount (get_token env buffer la).2.trace = 0 := by
  rw [get_token_none env buffer la h]
  exact ⟨rfl, rfl, rfl, rfl, rfl⟩

/-- Witness for C4 at a concrete empty store. -/
theorem C4_empty_store_witness :
    (get_token envW4 60 3).1
      = Except.error (TokenError.valueError "Token not found.")
    ∧ lockTryCount (get_token envW4 60 3).2.trace = 0 :=
  ⟨(C4_empty_store envW4 60 3 rfl).1, (C4_empty_store envW4 60 3 rfl).2.2.1⟩

/-- C5: when the stored record is expired, the lock is acquired and the
refresh endpoint succeeds, the call writes the endpoint's record to the
store and returns that same record. -/
theorem C5_refresh_success_persists (env : Env) (buffer : Int) (la : Nat)
    (t0 newTok : Tok) (rt : String)
    (h0 : env.reads 0 = some t0)
    (hst : tokenStale (env.reads 1) (env.times 0) buffer = true)
    (hacq : env.acquired = true)
    (hrt : t0.refresh_token = some rt)
    (hok : env.refreshResp rt = Except.ok newTok) :
    (get_token env buffer la).1 = Except.ok newTok
    ∧ Event.writeStore newTok ∈ (get_token env buffer la).2.trace := by
  rw [get_token_locked_ok env buffer la t0 newTok rt h0 hst hacq hrt hok]
  exact ⟨rfl, by simp⟩

/-- Witness for C5 on the spec's scenario: the R2-bearing record is
written and the returned record's `access_token` is "A2". -/
theorem C5_refresh_success_persists_witness :
    ((get_token envW5 60 3).1 = Except.ok tokA2
      ∧ Event.writeStore tokA2 ∈ (get_token envW5 60 3).2.trace)
    ∧ tokA2.access_token = some "A2" ∧ tokA2.refresh_token = some "R2" :=
  ⟨C5_refresh_success_persists envW5 60 3 tokA1 tokA2 "R1"
      rfl (by decide) rfl rfl rfl,
   rfl, rfl⟩

/-- C6: when the lock is acquired and the refresh call fails with a
non-2xx status, the call surfaces the HTTP error carrying the upstream
status, performs no store write and no second refresh call, and exits
the lock block (releasing the lock). -/
theorem C6_refresh_failure_released (env : Env) (buffer : Int) (la : Nat)
    (t0 : Tok) (rt : String) (status : Nat)
    (h0 : env.reads 0 = some t0)
    (hst : tokenStale (env.reads 1) (env.times 0) buffer = true)
    (hacq : env.acquired = true)
    (hrt : t0.refresh_token = some rt)
    (herr : env.refreshResp rt = Except.error status) :
    (get_token env buffer la).1
      = Except.error (TokenError.httpStatusError status)
    ∧ (get_token env buffer la).2.trace =
        [Event.readStore, Event.readStore, Event.lockAcquire true,
         Event.refreshCall rt, Event.lockExit]
    ∧ writeCount (get_token env buffer la).2.trace = 0
    ∧ refreshCount (get_token env buffer la).2.trace = 1 := by
  rw [get_token_locked_err env buffer la t0 rt status h0 hst hacq hrt herr]
  exact ⟨rfl, rfl, rfl, rfl⟩

/-- Witness for C6 at a concrete environment whose endpoint answers
HTTP 401. -/
theorem C6_refresh_failure_released_witness :
    (get_token envW6 60 3).1 = Except.error (TokenError.httpStatusError 401)
    ∧ writeCount (get_token envW6 60 3).2.trace = 0 :=
  ⟨(C6_refresh_failure_released envW6 60 3 tokA1 "R1" 401
      rfl (by decide) rfl rfl rfl).1,
   (C6_refresh_failure_released envW6 60 3 tokA1 "R1" 401
      rfl (by decide) rfl rfl rfl).2.2.1⟩

/-- C10: after a successful lock-held refresh, `self._token` holds the
pre-refresh record read at FRESH-CHECK while the store and the returned
value hold the refreshed record, so the internal view differs from the
canonical stored record whenever the two records differ. -/
theorem C10_internal_view_stale (env : Env) (buffer : Int) (la : Nat)
    (t0 newTok : Tok) (rt : String)
    (h0 : env.reads 0 = some t0)
    (hst : tokenStale (env.reads 1) (env.times 0) buffer = true)
    (hacq : env.acquired = true)
    (hrt : t0.refresh_token = some rt)
    (hok : env.refreshResp rt = Except.ok newTok) :
    (get_token env buffer la).1 = Except.ok newTok
    ∧ (get_token env buffer la).2.tokenField = some t0
    ∧ Event.writeStore newTok ∈ (get_token env buffer la).2.trace
    ∧ (newTok ≠ t0 → (get_token env buffer la).2.tokenField ≠ some newTok) := by
  rw [get_token_locked_ok env buffer la t0 newTok rt h0 hst hacq hrt hok]
  refine ⟨rfl, rfl, by simp, ?_⟩
  intro hne h
  exact hne (Option.some.inj h).symm

/-- Witness for C10 on the refresh scenario: the internal view keeps the
A1 record while the store and caller get the A2 record. -/
theorem C10_internal_view_stale_witness :
    (get_token envW10 60 3).1 = Except.ok tokA2
    ∧ (get_token envW10 60 3).2.tokenField = some tokA1
    ∧ (get_token envW10 60 3).2.tokenField ≠ some tokA2 := by
  have h := C10_internal_view_stale envW10 60 3 tokA1 tokA2 "R1"
    rfl (by decide) rfl rfl rfl
  exact ⟨h.1, h.2.1, h.2.2.2 (by decide)⟩

/-- C1: evaluation at the interleaving the claim quantifies over. The
lock-held path performs no store read between acquiring the lock and
calling the refresh endpoint (the trace shows both reads precede
`lockAcquire`), and it spends the refresh token "R1" from its initial
read even though a post-lock re-read (read index 2) would have returned
the record bearing "R2" — the superseded credential is spent, refuting
the claimed re-read. -/
theorem C1_no_reread_spends_superseded :
    (get_token envC1 60 3).2.trace =
      [Event.readStore, Event.readStore, Event.lockAcquire true,
       Event.refreshCall "R1", Event.writeStore tokMinted, Event.lockExit]
    ∧ envC1.reads 2 = some tokRotated
    ∧ tokRotated.refresh_token = some "R2"
    ∧ Event.refreshCall "R1" ∈ (get_token envC1 60 3).2.trace
    ∧ Event.refreshCall "R2" ∉ (get_token envC1 60 3).2.trace := by
  refine ⟨rfl, rfl, rfl, by decide, by decide⟩

/-- C7: evaluation at the claimed conversion point. The record the call
persists and returns is the provider response verbatim: it still has
`expires_in = 1800` and no `expires_at` at all — in particular not the
absolute timestamp `now + expires_in = 2800` the claim requires. -/
theorem C7_expires_at_not_normalized :
    (get_token envC7 60 3).1 = Except.ok tokA2
    ∧ Event.writeStore tokA2 ∈ (get_token envC7 60 3).2.trace
    ∧ tokA2.expires_in = some 1800
    ∧ tokA2.expires_at = none
    ∧ tokA2.expires_at ≠ some (ExpVal.num (1000 + 1800)) := by
  refine ⟨rfl, by decide, rfl, rfl, by decide⟩

/-- Counterexample to C3's success clause: in this run a polling round
does observe a fresh CredentialSet in the Store — the round's
freshness-check read (cursor 3, shown by the trace's final readStore)
returns the fresh record and passes the zero-buffer test — yet the call
returns not that record but the expired record of the round's earlier
poll read, so "the call returns that record" is false of the code. -/
theorem C3_fresh_observed_not_returned_cex :
    envC3x.reads 3 = some tokFresh9
    ∧ tokenStale (envC3x.reads 3) (envC3x.times 1) 0 = false
    ∧ (get_token envC3x 60 3).1 = Except.ok tokStale9
    ∧ tokStale9 ≠ tokFresh9
    ∧ (get_token envC3x 60 3).2.trace =
        [Event.readStore, Event.readStore, Event.lockAcquire false,
         Event.sleep, Event.readStore, Event.readStore, Event.lockExit] := by
  refine ⟨rfl, by decide, rfl, by decide, rfl⟩

/-- C3 as amended: a call that enters WAIT-RETRY (stale record, lock
not acquired) fails with the lock-timeout error (`RuntimeError` in the
source) after exactly `lock_attempts` polling rounds — one sleep per
round — whenever no polling-phase store read shows a fresh record;
moreover every failure of this path is that timeout error and comes
after exactly `lock_attempts` rounds, never earlier and never
unboundedly; and a successful return yields a record some polling round
read from the store, admitted by that round's zero-buffer freshness
check on the loop's subsequent store read (not necessarily the fresh
record the check observed); the refresh endpoint is never called on
this path. -/
theorem C3_bounded_wait (env : Env) (buffer : Int) (la : Nat) (t0 : Tok)
    (h0 : env.reads 0 = some t0)
    (hst : tokenStale (env.reads 1) (env.times 0) buffer = true)
    (hacq : env.acquired = false) :
    (noFreshPoll env →
       (get_token env buffer la).1
         = Except.error (TokenError.runtimeError "Failed to get a valid token.")
       ∧ sleepCount (get_token env buffer la).2.trace = la
       ∧ refreshCount (get_token env buffer la).2.trace = 0)
    ∧ (∀ err : TokenError, (get_token env buffer la).1 = Except.error err →
        err = TokenError.runtimeError "Failed to get a valid token."
        ∧ sleepCount (get_token env buffer la).2.trace = la)
    ∧ (∀ t : Tok, (get_token env buffer la).1 = Except.ok t →
        (∃ i j, 2 ≤ i ∧ env.reads i = some t ∧
           tokenStale (env.reads (i + 1)) (env.times j) 0 = false)
        ∧ refreshCount (get_token env buffer la).2.trace = 0) := by
  rw [get_token_retry env buffer la t0 h0 hst hacq]
  dsimp only
  have htr : refreshCount
      ((retryLoop env la contendState).2.trace ++ [Event.lockExit]) = 0 := by
    obtain ⟨d, hd, hall⟩ := retryLoop_trace env la contendState
    rw [refreshCount_append, hd, refreshCount_append,
        refreshCount_sleeps_reads d hall]
    simp [contendState, refreshCount]
  refine ⟨?_, ?_, ?_⟩
  · intro hnf
    obtain ⟨h1, h2⟩ := retryLoop_exhaust env hnf la contendState
      (by decide) (by decide)
    refine ⟨h1, ?_, htr⟩
    rw [sleepCount_append, h2]
    simp [contendState, sleepCount]
  · intro err herr
    obtain ⟨h1, h2⟩ := retryLoop_err env la contendState err herr
    refine ⟨h1, ?_⟩
    rw [sleepCount_append, h2]
    simp [contendState, sleepCount]
  · intro t ht
    obtain ⟨i, j, hi, h1, h2⟩ := retryLoop_ok env la contendState t ht
    refine ⟨⟨i, j, ?_, h1, h2⟩, htr⟩
    simpa [contendState] using hi

/-- Witness for C3 at a concrete environment whose store never shows a
fresh record during polling: with three configured attempts the call
fails after exactly three polling rounds. -/
theorem C3_bounded_wait_witness :
    (get_token envW3 60 3).1
      = Except.error (TokenError.runtimeError "Failed to get a valid token.")
    ∧ sleepCount (get_token envW3 60 3).2.trace = 3 := by
  have h := (C3_bounded_wait envW3 60 3 tokA1 rfl (by decide) rfl).1
    (fun i j _ _ => rfl)
  exact ⟨h.1, h.2.1⟩

/-- C8: a store write can occur only on the lock-held refresh path: any
write event in a call's trace forces the lock to have been acquired, the
first freshness check to have reported the record stale, and the written
record to be the successful refresh response that the call also returns;
the trace then contains no sleep, so no WAIT-RETRY round ran — the
fresh-return, polling and expiry-evaluation paths never write. -/
theorem C8_write_only_locked_refresh (env : Env) (buffer : Int) (la : Nat)
    (t : Tok)
    (hw : Event.writeStore t ∈ (get_token env buffer la).2.trace) :
    env.acquired = true
    ∧ tokenStale (env.reads 1) (env.times 0) buffer = true
    ∧ (∃ t0 rt, env.reads 0 = some t0 ∧ t0.refresh_token = some rt
        ∧ env.refreshResp rt = Except.ok t
        ∧ (get_token env buffer la).1 = Except.ok t)
    ∧ sleepCount (get_token env buffer la).2.trace = 0 := by
  cases h0 : env.reads 0 with
  | none =>
    rw [get_token_none env buffer la h0] at hw
    simp at hw
  | some t0 =>
    by_cases hst : tokenStale (env.reads 1) (env.times 0) buffer = true
    · by_cases hacq : env.acquired = true
      · cases hrt : t0.refresh_token with
        | none =>
          rw [get_token_locked_keyerr env buffer la t0 h0 hst hacq hrt] at hw
          simp at hw
        | some rt =>
          cases hresp : env.refreshResp rt with
          | error st =>
            rw [get_token_locked_err env buffer la t0 rt st
                  h0 hst hacq hrt hresp] at hw
            simp at hw
          | ok newTok =>
            rw [get_token_locked_ok env buffer la t0 newTok rt
                  h0 hst hacq hrt hresp] at hw
            simp at hw
            subst hw
            refine ⟨hacq, hst, ⟨t0, rt, rfl, hrt, hresp, ?_⟩, ?_⟩
            · rw [get_token_locked_ok env buffer la t0 t rt
                    h0 hst hacq hrt hresp]
            · rw [get_token_locked_ok env buffer la t0 t rt
                    h0 hst hacq hrt hresp]
              rfl
      · have hacq' : env.acquired = false := by
          revert hacq; cases env.acquired <;> simp
        rw [get_token_retry env buffer la t0 h0 hst hacq'] at hw
        dsimp only at hw
        obtain ⟨d, hd, hall⟩ := retryLoop_trace env la contendState
        rw [hd] at hw
        exfalso
        rcases List.mem_append.1 hw with h1 | h1
        · rcases List.mem_append.1 h1 with h2 | h2
          · simp [contendState] at h2
          · exact writeStore_not_mem_sleeps_reads t d hall h2
        · simp at h1
    · have hst' : tokenStale (env.reads 1) (env.times 0) buffer = false := by
        revert hst; cases tokenStale (env.reads 1) (env.times 0) buffer <;> simp
      rw [get_token_fresh env buffer la t0 h0 hst'] at hw
      simp at hw

/-- Witness for C8 at a concrete environment whose trace does contain a
write: the theorem yields the acquired lock and the sleep-free trace. -/
theorem C8_write_only_locked_refresh_witness :
    envW8.acquired = true
    ∧ sleepCount (get_token envW8 60 3).2.trace = 0 := by
  have h := C8_write_only_locked_refresh envW8 60 3 tokA2 (by decide)
  exact ⟨h.1, h.2.2.2⟩

/-- Counterexample to C9's guarantee: the WAIT-RETRY path returns the
polling round's read, while the zero-buffer check that admitted it ran
on a separate, later store read. Here the call returns the record with
`expires_at = 990`, which is expired under a zero buffer (let alone the
caller's buffer 60) at the clock value 1000 that the constant clock
reports at every instant of the call — so the returned record is not
"guaranteed not expired at the instant of return". -/
theorem C9_returned_record_expired_cex :
    (get_token envC9 60 3).1 = Except.ok tokStale9
    ∧ envC9.times 0 = 1000
    ∧ tokenStale (some tokStale9) 1000 0 = true
    ∧ tokenStale (some tokStale9) 1000 60 = true := by
  refine ⟨rfl, rfl, by decide, by decide⟩

/-- C9 as amended: a successful WAIT-RETRY return was admitted by a
freshness re-validation with a zero-second buffer — not the caller's
buffer — evaluated on the loop's own next store read rather than on the
returned record itself; hence the returned record is guaranteed neither
to satisfy the caller's buffer nor even to be unexpired at return. -/
theorem C9_wait_retry_zero_buffer (env : Env) (buffer : Int) (la : Nat)
    (t0 : Tok)
    (h0 : env.reads 0 = some t0)
    (hst : tokenStale (env.reads 1) (env.times 0) buffer = true)
    (hacq : env.acquired = false) :
    ∀ t : Tok, (get_token env buffer la).1 = Except.ok t →
      ∃ i j, 2 ≤ i ∧ env.reads i = some t ∧
        tokenStale (env.reads (i + 1)) (env.times j) 0 = false := by
  intro t ht
  rw [get_token_retry env buffer la t0 h0 hst hacq] at ht
  obtain ⟨i, j, hi, h1, h2⟩ := retryLoop_ok env la contendState t ht
  exact ⟨i, j, by simpa [contendState] using hi, h1, h2⟩

/-- Witness for the amended C9 at the concrete environment of the
counterexample: the accepting zero-buffer check exists. -/
theorem C9_wait_retry_zero_buffer_witness :
    ∃ i j, 2 ≤ i ∧ envC9.reads i = some tokStale9 ∧
      tokenStale (envC9.reads (i + 1)) (envC9.times j) 0 = false :=
  C9_wait_retry_zero_buffer envC9 60 3 tokStale9 rfl (by decide) rfl
    tokStale9 rfl

end SchwabClient
